import Mathlib

/-!
# Verification of the `mcp-python` REPL server (`src/mcp_python/server.py`)

A shallow embedding of the three MCP tools of `server.py`
(`execute_python`, `install_package`, `list_variables`) and of the fragment
of Python semantics their behaviour depends on.

The shared mutable `global_namespace` dict is modelled as an explicit
association list threaded through each call (Python dicts preserve
insertion order; updating an existing key keeps its position, a new key is
appended).  The submitted code string is modelled as a list of single-line
statements of a mini-language `Stmt` covering the constructs the claims
exercise; because every statement of the mini-language occupies exactly one
source line, the final text line of the submitted code (what
`code.strip().split(chr(10))[-1]` extracts) is its final statement.

Python exceptions are modelled by `PyErr`; the distinction between
`Exception`-derived faults (caught by `except Exception:` on line 59 of the
source) and bare `BaseException`s such as `SystemExit` (not caught) is the
`isException` predicate.  `traceback.format_exc()` is an external
collaborator and is modelled abstractly by `pyTrace`, a string containing
the header of a CPython traceback and the fault's rendered name/message.
-/

namespace McpPython

/-- Runtime values of the modelled Python fragment: integers, `None`,
lists of integers, the reserved `__builtins__` entry, and imported module
objects. -/
inductive Value where
  | VInt (n : Int)
  | VNone
  | VList (l : List Int)
  | VBuiltins
  | VModule (m : String)
deriving DecidableEq, Repr

/-- Python exceptions relevant to `server.py`.  `systemExit` models
`SystemExit` (a `BaseException` that is *not* an `Exception`); all other
constructors model `Exception` subclasses. -/
inductive PyErr where
  | syntaxError
  | valueError
  | nameError (x : String)
  | typeError
  | indexError
  | fileNotFoundError
  | importError (msg : String)
  | calledProcessError (stderr : String)
  | systemExit
deriving DecidableEq, Repr

/-- `True` exactly for the `Exception`-derived faults, i.e. those matched by
`except Exception:`; `SystemExit` derives only from `BaseException`. -/
def PyErr.isException : PyErr → Bool
  | .systemExit => false
  | _ => true

/-- Rendered name and message of a fault, as it appears on the last line of
a CPython traceback. -/
def PyErr.render : PyErr → String
  | .syntaxError => "SyntaxError: invalid syntax"
  | .valueError => "ValueError"
  | .nameError x => "NameError: name " ++ x ++ " is not defined"
  | .typeError => "TypeError"
  | .indexError => "IndexError: pop from empty list"
  | .fileNotFoundError => "FileNotFoundError: uv"
  | .importError m => "ImportError: " ++ m
  | .calledProcessError s => "CalledProcessError: " ++ s
  | .systemExit => "SystemExit"

/-- Model of `traceback.format_exc()` (an opaque external collaborator):
a string containing the traceback header and the fault's rendering. -/
def pyTrace (e : PyErr) : String :=
  "Traceback (most recent call last):\n  ...\n" ++ e.render

/-- The shared namespace: an insertion-ordered mapping from identifier to
value, as a Python dict is. -/
def Ns : Type := List (String × Value)

instance : DecidableEq Ns := by unfold Ns; infer_instance

/-- Dict update with Python semantics: an existing key keeps its position
and gets the new value; a fresh key is appended at the end. -/
def nsSet (ns : Ns) (k : String) (v : Value) : Ns :=
  match ns with
  | [] => [(k, v)]
  | (k', v') :: rest =>
      if k' = k then (k, v) :: rest else (k', v') :: nsSet rest k v

/-- Dict lookup. -/
def nsGet (ns : Ns) (k : String) : Option Value :=
  match ns with
  | [] => none
  | (k', v) :: rest => if k' = k then some v else nsGet rest k

/-- The namespace as (re)initialised by the module prelude (lines 20-22)
and by the reset branch (lines 30-31): only the reserved builtins entry. -/
def resetNs : Ns := [("__builtins__", Value.VBuiltins)]

/-- `repr` of the modelled values (Python's printable representation). -/
def pyRepr : Value → String
  | .VInt n => toString n
  | .VNone => "None"
  | .VList l => "[" ++ String.intercalate ", " (l.map toString) ++ "]"
  | .VBuiltins => "<module builtins>"
  | .VModule m => "<module " ++ m ++ ">"

/-- Expressions of the modelled Python fragment. `print_` models
`print(e)` (writes to the redirected stdout), `printErr` models
`print(e, file=sys.stderr)` (writes to the redirected stderr). `append`
models the state-mutating method call `x.append(e)` and `pop` models
`x.pop()` (raising `IndexError` on an empty list). -/
inductive Expr where
  | int (n : Int)
  | listLit (l : List Int)
  | var (x : String)
  | add (e₁ e₂ : Expr)
  | append (x : String) (e : Expr)
  | pop (x : String)
  | print_ (e : Expr)
  | printErr (e : Expr)
deriving DecidableEq, Repr

/-- Single-line statements of the modelled fragment: an assignment
`x = e`, a bare expression statement, or a `raise E` statement. -/
inductive Stmt where
  | assign (x : String) (e : Expr)
  | expr (e : Expr)
  | raise_ (e : PyErr)
deriving DecidableEq, Repr

/-- The state an execution runs in: the namespace plus the in-memory
buffers that stdout/stderr are redirected to (lines 34-38). -/
structure ExecSt where
  ns : Ns
  out : String
  err : String
deriving DecidableEq

/-- Evaluation of an expression: threads the state (expressions can print
and can mutate list bindings) and either produces a value or raises. -/
def evalE : Expr → ExecSt → ExecSt × Except PyErr Value
  | .int n, st => (st, .ok (.VInt n))
  | .listLit l, st => (st, .ok (.VList l))
  | .var x, st =>
      match nsGet st.ns x with
      | some v => (st, .ok v)
      | none => (st, .error (.nameError x))
  | .add e₁ e₂, st =>
      match evalE e₁ st with
      | (st₁, .error e) => (st₁, .error e)
      | (st₁, .ok v₁) =>
        match evalE e₂ st₁ with
        | (st₂, .error e) => (st₂, .error e)
        | (st₂, .ok v₂) =>
          match v₁, v₂ with
          | .VInt a, .VInt b => (st₂, .ok (.VInt (a + b)))
          | _, _ => (st₂, .error .typeError)
  | .append x e, st =>
      match evalE e st with
      | (st₁, .error e) => (st₁, .error e)
      | (st₁, .ok v) =>
        match nsGet st₁.ns x, v with
        | none, _ => (st₁, .error (.nameError x))
        | some (.VList l), .VInt i =>
            ({ st₁ with ns := nsSet st₁.ns x (.VList (l ++ [i])) }, .ok .VNone)
        | some _, _ => (st₁, .error .typeError)
  | .pop x, st =>
      match nsGet st.ns x with
      | none => (st, .error (.nameError x))
      | some (.VList []) => (st, .error .indexError)
      | some (.VList (i :: l)) =>
          ({ st with ns := nsSet st.ns x (.VList ((i :: l).dropLast)) },
           .ok (.VInt ((i :: l).getLast (by simp))))
      | some _ => (st, .error .typeError)
  | .print_ e, st =>
      match evalE e st with
      | (st₁, .error e) => (st₁, .error e)
      | (st₁, .ok v) => ({ st₁ with out := st₁.out ++ pyRepr v ++ "\n" }, .ok .VNone)
  | .printErr e, st =>
      match evalE e st with
      | (st₁, .error e) => (st₁, .error e)
      | (st₁, .ok v) => ({ st₁ with err := st₁.err ++ pyRepr v ++ "\n" }, .ok .VNone)

/-- One statement under `exec`: mutations performed before a raise persist
(a dict passed to `exec` is mutated in place as the code runs). -/
def execStmt : Stmt → ExecSt → ExecSt × Option PyErr
  | .assign x e, st =>
      match evalE e st with
      | (st₁, .error err) => (st₁, some err)
      | (st₁, .ok v) => ({ st₁ with ns := nsSet st₁.ns x v }, none)
  | .expr e, st =>
      match evalE e st with
      | (st₁, .error err) => (st₁, some err)
      | (st₁, .ok _) => (st₁, none)
  | .raise_ e, st => (st, some e)

/-- `exec(code, global_namespace)` on the statement list: runs statements
in order, stopping at (and reporting) the first raised fault, keeping the
partially mutated state. -/
def execStmts : List Stmt → ExecSt → ExecSt × Option PyErr
  | [], st => (st, none)
  | s :: rest, st =>
      match execStmt s st with
      | (st₁, some e) => (st₁, some e)
      | (st₁, none) => execStmts rest st₁

/-- `eval(last_line, global_namespace)` (line 52): the final *line* handed
to `eval`.  An assignment or a `raise` statement is not an expression, so
`eval` raises `SyntaxError` on it; a bare expression is evaluated against
the namespace with fresh (real, not redirected) streams whose content the
caller discards. -/
def evalLine : Stmt → Ns → Ns × Except PyErr Value
  | .assign _ _, ns => (ns, .error .syntaxError)
  | .raise_ _, ns => (ns, .error .syntaxError)
  | .expr e, ns =>
      let (st, r) := evalE e ⟨ns, "", ""⟩
      (st.ns, r)

/-- `True` iff the fault is one of the tuple
`(SyntaxError, ValueError, NameError)` caught on line 54. -/
def swallowedByFallback : PyErr → Bool
  | .syntaxError => true
  | .valueError => true
  | .nameError _ => true
  | _ => false

/-- Line 55's message. -/
def noOutputMsg : String := "Code executed successfully (no output)"

/-- Lines 44-48: assemble the result text from the captured buffers. -/
def formatStreams (output errors : String) : String :=
  (if output ≠ "" then "Output:\n" ++ output else "")
    ++ (if errors ≠ "" then "\nErrors:\n" ++ errors else "")

/-- The `execute_python` tool (lines 24-61), with the shared
`global_namespace` threaded explicitly.  The returned value is
`.ok (namespace', text)` when the call returns a `TextContent` and
`.error e` when a fault escapes the function (only `except Exception:`
guards the body, so a bare `BaseException` such as `SystemExit`
propagates). -/
def execute_python (ns : Ns) (code : List Stmt) (reset : Bool) :
    Except PyErr (Ns × String) :=
  if reset then
    .ok (resetNs, "Python session reset. All variables cleared.")
  else
    match execStmts code ⟨ns, "", ""⟩ with
    | (st, some e) =>
        if e.isException then
          .ok (st.ns, "Error executing code:\n" ++ pyTrace e)
        else
          .error e
    | (st, none) =>
        if st.out = "" ∧ st.err = "" then
          match code.getLast? with
          | none =>
              -- empty code: `"".strip().split(...)[-1]` is `""`, and
              -- `eval("")` raises a SyntaxError, which is swallowed
              .ok (st.ns, noOutputMsg)
          | some line =>
              match evalLine line st.ns with
              | (ns₂, .ok v) => .ok (ns₂, "Result: " ++ pyRepr v)
              | (ns₂, .error e) =>
                  if swallowedByFallback e then
                    .ok (ns₂, noOutputMsg)
                  else if e.isException then
                    -- falls through to the outer `except Exception:`
                    .ok (ns₂, "Error executing code:\n" ++ pyTrace e)
                  else
                    .error e
        else
          .ok (st.ns, formatStreams st.out st.err)

/-! ## `install_package` (lines 63-88) -/

/-- A character of the class `[A-Za-z0-9._-]` in the validation pattern on
line 66. -/
def isPkgChar (c : Char) : Bool :=
  c.isAlphanum || c = '.' || c = '_' || c = '-'

/-- The core of the pattern `^[A-Za-z0-9][A-Za-z0-9._-]*$` without the
anchors: one alphanumeric, then any run of alphanumerics, dot, underscore,
hyphen. -/
def pkgCore : List Char → Bool
  | [] => false
  | c :: rest => c.isAlphanum && rest.all isPkgChar

/-- `re.match("^[A-Za-z0-9][A-Za-z0-9._-]*$", package)` (line 66).  In
Python, without `re.MULTILINE`, `$` matches at the end of the string *or*
just before a single newline at the end of the string, so a trailing
newline is tolerated by the anchor. -/
def validPackage (p : String) : Bool :=
  pkgCore p.toList ||
    (p.toList.getLast? = some '\n' && pkgCore p.toList.dropLast)

/-- The pattern exactly as the spec's words describe it (for the
refinement comparison with `validPackage`): "one alphanumeric character
followed by any run of alphanumerics, dot, underscore, hyphen". -/
def specPattern (p : String) : Bool :=
  match p.toList with
  | [] => false
  | c :: rest =>
      c.isAlphanum &&
        rest.all (fun d => d.isAlphanum || d = '.' || d = '_' || d = '-')

/-- The spec's pattern amended with what the code's `$` anchor actually
admits: at most one trailing newline after the described pattern. -/
def specPatternNL (p : String) : Bool :=
  specPattern p ||
    (p.toList.getLast? = some '\n' && specPattern ⟨p.toList.dropLast⟩)

/-- `package.split(chr(91))[0]` (line 82): everything before the first
`[`. -/
def modHead (p : String) : String := ⟨p.toList.takeWhile (· ≠ '[')⟩

/-- Drop a single trailing newline (the only trailing whitespace a
validated package name can carry). -/
def dropNL (p : String) : String :=
  if p.toList.getLast? = some '\n' then ⟨p.toList.dropLast⟩ else p

/-- Python keywords, which cannot appear as a module name in an `import`
statement. -/
def pyKeywords : List String :=
  ["False", "None", "True", "and", "as", "assert", "async", "await",
   "break", "class", "continue", "def", "del", "elif", "else", "except",
   "finally", "for", "from", "global", "if", "import", "in", "is",
   "lambda", "nonlocal", "not", "or", "pass", "raise", "return", "try",
   "while", "with", "yield"]

/-- A Python identifier: `[A-Za-z_]` then a run of `[A-Za-z0-9_]`, and not
a keyword. -/
def isPyIdent (s : String) : Bool :=
  (match s.toList with
   | [] => false
   | c :: rest =>
       (c.isAlpha || c = '_') && rest.all (fun d => d.isAlphanum || d = '_'))
  && !(pyKeywords.any (fun k => decide (k = s)))

/-- Splitting a character list at every dot (the grouping `splitOn "."`
performs). -/
def splitOnDot : List Char → List (List Char)
  | [] => [[]]
  | c :: rest =>
      match splitOnDot rest with
      | [] => [[c]]
      | g :: gs => if c = '.' then [] :: g :: gs else (c :: g) :: gs

/-- Whether the source string `"import " ++ m` parses: `m` (up to one
trailing newline) must be a dotted path of identifiers.  Otherwise
`exec` on line 82 raises `SyntaxError` — which neither `except
ImportError` (line 84) nor `except subprocess.CalledProcessError`
(line 87) catches. -/
def importSyntaxOk (m : String) : Bool :=
  (splitOnDot (dropNL m).toList).all (fun g => isPyIdent ⟨g⟩)

/-- `import a.b.c` binds the name `a` (the first dotted component) in the
executing namespace. -/
def boundName (m : String) : String := ⟨(dropNL m).toList.takeWhile (· ≠ '.')⟩

/-- Outcome of the blocking `subprocess.run(["uv", "pip", "install", p],
capture_output=True, text=True, check=True)` call: either the launch
itself fails (`uv` not found: `FileNotFoundError`) or the process runs to
an exit code with captured streams.  With `check=True` a nonzero exit
raises `subprocess.CalledProcessError`. -/
inductive UvOutcome where
  | launchFail
  | exit (code : Int) (stdout stderr : String)
deriving DecidableEq, Repr

/-- The external world `install_package` interacts with: what `uv` does
for a given package, and whether the (syntax-valid) import of a module
succeeds at runtime (`ImportError`, e.g. `ModuleNotFoundError`, carries a
message). -/
structure UvWorld where
  uv : String → UvOutcome
  importOk : String → Bool
  importErrMsg : String → String

/-- Observable side effects of an `install_package` call: an invocation of
the external package manager. -/
inductive Effect where
  | uvInstall (pkg : String)
deriving DecidableEq, Repr

/-- The `install_package` tool (lines 63-88).  Returns the tool result
(`.error e` when a fault escapes the function) paired with the list of
subprocess invocations performed.  The `if process.returncode != 0`
branch on line 78 is dead: with `check=True` a nonzero exit raises
`CalledProcessError`, caught on line 87 with text
`"Failed to install package:" ++ newline ++ e.stderr`. -/
def install_package (w : UvWorld) (ns : Ns) (package : String) :
    Except PyErr (Ns × String) × List Effect :=
  if ¬ validPackage package then
    (.ok (ns, "Invalid package name: " ++ package), [])
  else
    match w.uv package with
    | .launchFail =>
        -- FileNotFoundError: not a CalledProcessError, escapes
        (.error .fileNotFoundError, [.uvInstall package])
    | .exit c _ stderr =>
        if c ≠ 0 then
          (.ok (ns, "Failed to install package:\n" ++ stderr),
           [.uvInstall package])
        else
          let m := modHead package
          if ¬ importSyntaxOk m then
            -- SyntaxError from exec: not an ImportError, escapes
            (.error .syntaxError, [.uvInstall package])
          else if w.importOk m then
            (.ok (nsSet ns (boundName m) (.VModule (boundName m)),
                  "Successfully installed and imported " ++ package),
             [.uvInstall package])
          else
            (.ok (ns, "Package installed but import failed: "
                        ++ w.importErrMsg m),
             [.uvInstall package])

/-! ## `list_variables` (lines 90-102) -/

/-- `k.startswith(chr(95))`: the key's first character is an
underscore. -/
def startsUnderscore (s : String) : Bool :=
  match s.toList with
  | [] => false
  | c :: _ => c = '_'

/-- The dict comprehension on lines 93-96: entries whose key does not
start with an underscore and is not the builtins key, in insertion order,
rendered with `repr`. -/
def visibleVars (ns : Ns) : List (String × String) :=
  (ns.filter (fun kv =>
      !startsUnderscore kv.1 && decide (kv.1 ≠ "__builtins__"))).map
    (fun kv => (kv.1, pyRepr kv.2))

/-- The `list_variables` tool (lines 90-102): a pure read of the
namespace producing only text. -/
def list_variables (ns : Ns) : String :=
  let vs := visibleVars ns
  if vs = [] then
    "No variables in current session."
  else
    "Current session variables:\n\n"
      ++ String.intercalate "\n" (vs.map (fun kv => kv.1 ++ " = " ++ kv.2))

/-! ## Infrastructure for the statefulness claim -/

/-- The one-line program `x = n` (a "simple variable" binding). -/
def bindProg (x : String) (n : Int) : List Stmt := [.assign x (.int n)]

/-- A sequence of `execute_python` calls, each binding one simple
variable, threading the shared namespace from call to call (the error
branch is unreachable for such programs). -/
def runCalls (ns : Ns) (binds : List (String × Int)) : Ns :=
  binds.foldl
    (fun ns b =>
      match execute_python ns (bindProg b.1 b.2) false with
      | .ok (ns', _) => ns'
      | .error _ => ns)
    ns

/-- The last value a sequence of simple bindings gives to `x`, if any. -/
def lastBound : List (String × Int) → String → Option Int
  | [], _ => none
  | b :: rest, x =>
      match lastBound rest x with
      | some n => some n
      | none => if b.1 = x then some b.2 else none

/-- `True` iff a tool call returned a `TextContent` rather than letting a
fault escape. -/
def returnsText : Except PyErr (Ns × String) → Bool
  | .ok _ => true
  | .error _ => false

/-! ## Basic lemmas about the namespace and the execution model -/

theorem nsGet_nsSet_self (ns : Ns) (k : String) (v : Value) :
    nsGet (nsSet ns k v) k = some v := by
  induction ns with
  | nil => simp [nsSet, nsGet]
  | cons kv rest ih =>
      obtain ⟨k', v'⟩ := kv
      by_cases h : k' = k <;> simp [nsSet, nsGet, h, ih]

theorem nsGet_nsSet_ne (ns : Ns) (k k' : String) (v : Value) (h : k' ≠ k) :
    nsGet (nsSet ns k' v) k = nsGet ns k := by
  induction ns with
  | nil => simp [nsSet, nsGet, h]
  | cons kv rest ih =>
      obtain ⟨k₀, v₀⟩ := kv
      by_cases h₀ : k₀ = k'
      · subst h₀; simp [nsSet, nsGet, h]
      · simp only [nsSet, if_neg h₀, nsGet]
        by_cases h₁ : k₀ = k
        · simp [h₁]
        · simp [h₁, ih]

/-- One simple-binding call: it binds the variable and reports the
no-output message (the final line `x = n` is not an expression, so the
fallback `eval` raises a swallowed `SyntaxError`). -/
theorem execute_python_bind (ns : Ns) (x : String) (n : Int) :
    execute_python ns (bindProg x n) false
      = .ok (nsSet ns x (.VInt n), noOutputMsg) := rfl

/-- Referencing a bound variable: the call reports `Result:` with the
value's printable representation and leaves the namespace unchanged. -/
theorem execute_python_var (ns : Ns) (x : String) (v : Value)
    (h : nsGet ns x = some v) :
    execute_python ns [.expr (.var x)] false
      = .ok (ns, "Result: " ++ pyRepr v) := by
  simp [execute_python, execStmts, execStmt, evalE, evalLine, h]

theorem runCalls_eq_foldl (binds : List (String × Int)) (ns : Ns) :
    runCalls ns binds
      = binds.foldl (fun ns b => nsSet ns b.1 (.VInt b.2)) ns := by
  induction binds generalizing ns with
  | nil => rfl
  | cons b rest ih =>
      simp only [runCalls, List.foldl_cons] at *
      rw [execute_python_bind]
      exact ih _

theorem nsGet_runCalls (binds : List (String × Int)) (x : String) (ns : Ns) :
    nsGet (runCalls ns binds) x
      = match lastBound binds x with
        | some n => some (.VInt n)
        | none => nsGet ns x := by
  rw [runCalls_eq_foldl]
  induction binds generalizing ns with
  | nil => simp [lastBound]
  | cons b rest ih =>
      simp only [List.foldl_cons, lastBound]
      rw [ih]
      cases hrest : lastBound rest x with
      | some n => simp
      | none =>
          by_cases hb : b.1 = x
          · subst hb; simp [nsGet_nsSet_self]
          · simp [hb, nsGet_nsSet_ne _ _ _ _ hb]

/-! ## Claim theorems -/

/-- C1: Namespace bindings persist across calls.  For every sequence of
`execute_python` calls that each bind one simple variable, a later call
whose code references an earlier-bound variable observes the last value
bound to it, reported as `Result:` with its representation, and leaves the
namespace unchanged. -/
theorem execute_python_stateful (binds : List (String × Int)) (x : String)
    (n : Int) (h : lastBound binds x = some n) :
    execute_python (runCalls resetNs binds) [.expr (.var x)] false
      = .ok (runCalls resetNs binds, "Result: " ++ toString n) := by
  have hget : nsGet (runCalls resetNs binds) x = some (.VInt n) := by
    rw [nsGet_runCalls, h]
  exact execute_python_var _ _ _ hget

/-- C1 witness: after `execute_python ("x = 5")`, the call
`execute_python ("x")` returns the text `Result: 5`. -/
theorem execute_python_stateful_witness :
    lastBound [("x", 5)] "x" = some 5 ∧
    execute_python (runCalls resetNs [("x", 5)]) [.expr (.var "x")] false
      = .ok (runCalls resetNs [("x", 5)], "Result: " ++ toString (5 : Int)) :=
  ⟨rfl, execute_python_stateful [("x", 5)] "x" 5 rfl⟩

/-- C2: a reset call ignores the code argument entirely, leaves the
namespace holding only the reserved builtins entry, and returns the
confirmation text; in the `x = 5` / reset / `x` scenario the final call
reports a `NameError` fault, not the prior value. -/
theorem execute_python_reset :
    (∀ (ns : Ns) (code : List Stmt),
        execute_python ns code true
          = .ok (resetNs, "Python session reset. All variables cleared.")) ∧
    execute_python resetNs (bindProg "x" 5) false
      = .ok (nsSet resetNs "x" (.VInt 5), noOutputMsg) ∧
    execute_python (nsSet resetNs "x" (.VInt 5)) [.expr (.var "x")] true
      = .ok (resetNs, "Python session reset. All variables cleared.") ∧
    execute_python resetNs [.expr (.var "x")] false
      = .ok (resetNs,
             "Error executing code:\n" ++ pyTrace (.nameError "x")) :=
  ⟨fun _ _ => rfl, rfl, rfl, rfl⟩

/-- C3 counterexample: the claim "any fault raised while running the
submitted code is fully captured and the call always returns a text
result" is false: `raise SystemExit` raises a `BaseException` that
`except Exception:` (line 59) does not match, so the fault escapes the
tool function instead of producing a text result. -/
theorem execute_python_systemexit_escapes :
    execute_python resetNs [.raise_ .systemExit] false
      = .error .systemExit ∧
    returnsText (execute_python resetNs [.raise_ .systemExit] false)
      = false :=
  ⟨rfl, rfl⟩

/-- C3 (amended): any `Exception`-derived fault raised while running the
submitted code is captured and the call returns a formatted failure
report containing the fault trace (faults deriving only from
`BaseException`, such as `SystemExit`, are the sole exclusions). -/
theorem execute_python_exception_reported (ns : Ns) (code : List Stmt)
    (st : ExecSt) (e : PyErr)
    (hrun : execStmts code ⟨ns, "", ""⟩ = (st, some e))
    (hexc : e.isException = true) :
    execute_python ns code false
      = .ok (st.ns, "Error executing code:\n" ++ pyTrace e) := by
  simp [execute_python, hrun, hexc]

/-- C3 witness: code raising a `ValueError` yields the formatted failure
report as a text result. -/
theorem execute_python_exception_reported_witness :
    execute_python resetNs [.raise_ .valueError] false
      = .ok (resetNs, "Error executing code:\n" ++ pyTrace .valueError) :=
  execute_python_exception_reported resetNs [.raise_ .valueError]
    ⟨resetNs, "", ""⟩ .valueError rfl rfl

/-- C9: when execution succeeds with no captured output, the final line is
evaluated a second time against the same shared namespace, so a
state-mutating final expression has its side effect twice in one call:
`x = []` then `x.append(1)` leaves `x` bound to `[1, 1]` and returns
`Result: None`. -/
theorem execute_python_double_eval :
    execute_python resetNs
        [.assign "x" (.listLit []), .expr (.append "x" (.int 1))] false
      = .ok ([("__builtins__", .VBuiltins), ("x", .VList [1, 1])],
             "Result: None") := rfl

/-- C6 counterexample: the claim "whenever the final-line fallback
evaluation fails, for any reason, the returned text is the generic
no-output message" is false: `x = [1]` then `x.pop()` executes cleanly
with no output, but re-evaluating the final line pops from the
now-empty list, and the resulting `IndexError` is not in the
`(SyntaxError, ValueError, NameError)` tuple of line 54 — it falls to the
outer handler and the call returns a fault report instead. -/
theorem fallback_failure_reported_cex :
    execute_python resetNs [.assign "x" (.listLit [1]), .expr (.pop "x")]
        false
      = .ok ([("__builtins__", .VBuiltins), ("x", .VList [])],
             "Error executing code:\n" ++ pyTrace .indexError) ∧
    "Error executing code:\n" ++ pyTrace .indexError ≠ noOutputMsg :=
  ⟨rfl, by decide⟩

/-- C6 (amended): when the final-line fallback evaluation fails with a
`SyntaxError`, `ValueError` or `NameError` (after the main execution
succeeded with no captured output), the failure is swallowed and the
returned text is the generic no-output message; in particular a final
line that is an assignment yields the fixed no-output message.  (Other
fallback faults reach the outer handler and are reported as a fault
trace.) -/
theorem fallback_swallowed (ns : Ns) (code : List Stmt) (st : ExecSt)
    (line : Stmt) (ns₂ : Ns) (e : PyErr)
    (hrun : execStmts code ⟨ns, "", ""⟩ = (st, none))
    (hout : st.out = "") (herr : st.err = "")
    (hlast : code.getLast? = some line)
    (heval : evalLine line st.ns = (ns₂, .error e))
    (hsw : swallowedByFallback e = true) :
    execute_python ns code false = .ok (ns₂, noOutputMsg) := by
  simp [execute_python, hrun, hout, herr, hlast, heval, hsw]

/-- C6 witness: a final line that is an assignment (`x = 5`) produces the
fixed no-output message through the swallowed `SyntaxError`. -/
theorem fallback_swallowed_witness :
    execute_python resetNs [.assign "x" (.int 5)] false
      = .ok (nsSet resetNs "x" (.VInt 5), noOutputMsg) :=
  fallback_swallowed resetNs [.assign "x" (.int 5)]
    ⟨nsSet resetNs "x" (.VInt 5), "", ""⟩ (.assign "x" (.int 5))
    (nsSet resetNs "x" (.VInt 5)) .syntaxError rfl rfl rfl rfl rfl rfl

/-- C7: result formatting.  (1) With no captured output and a bare
expression as the final line, whose re-evaluation yields value `v`, the
call returns `Result:` followed by the printable representation of `v`;
(2) with captured output the call returns the buffers rendered by the
label format of lines 44-48; (3) that format echoes stdout verbatim under
`Output:` and stderr verbatim under `Errors:`, both together when both
are nonempty; (4) code ending in `2 + 2` returns `Result: 4`. -/
theorem execute_python_result_format :
    (∀ (ns : Ns) (code : List Stmt) (st : ExecSt) (e : Expr) (ns₂ : Ns)
        (v : Value),
        execStmts code ⟨ns, "", ""⟩ = (st, none) →
        st.out = "" → st.err = "" →
        code.getLast? = some (.expr e) →
        evalLine (.expr e) st.ns = (ns₂, .ok v) →
        execute_python ns code false = .ok (ns₂, "Result: " ++ pyRepr v)) ∧
    (∀ (ns : Ns) (code : List Stmt) (st : ExecSt),
        execStmts code ⟨ns, "", ""⟩ = (st, none) →
        ¬(st.out = "" ∧ st.err = "") →
        execute_python ns code false
          = .ok (st.ns, formatStreams st.out st.err)) ∧
    (∀ o e : String, o ≠ "" → e ≠ "" →
        formatStreams o e = "Output:\n" ++ o ++ "\nErrors:\n" ++ e) ∧
    (∀ o : String, o ≠ "" → formatStreams o "" = "Output:\n" ++ o) ∧
    (∀ e : String, e ≠ "" → formatStreams "" e = "\nErrors:\n" ++ e) ∧
    execute_python resetNs [.expr (.add (.int 2) (.int 2))] false
      = .ok (resetNs, "Result: 4") ∧
    execute_python resetNs
        [.expr (.print_ (.int 1)), .expr (.printErr (.int 2))] false
      = .ok (resetNs, "Output:\n" ++ "1\n" ++ "\nErrors:\n" ++ "2\n") := by
  refine ⟨?_, ?_, ?_, ?_, ?_, ?_, ?_⟩
  · intro ns code st e ns₂ v hrun hout herr hlast heval
    simp [execute_python, hrun, hout, herr, hlast, heval]
  · intro ns code st hrun hne
    simp [execute_python, hrun, hne]
  · intro o e ho he; simp [formatStreams, ho, he, String.append_assoc]
  · intro o ho; simp [formatStreams, ho]
  · intro e he; simp [formatStreams, he]
  · rfl
  · rfl

/-- C7 witness: the program `print(1)` followed by
`print(2, file=sys.stderr)` produces both labels with the captured
buffers echoed verbatim. -/
theorem execute_python_result_format_witness :
    execute_python resetNs
        [.expr (.print_ (.int 1)), .expr (.printErr (.int 2))] false
      = .ok (resetNs, formatStreams "1\n" "2\n") :=
  execute_python_result_format.2.1 resetNs
    [.expr (.print_ (.int 1)), .expr (.printErr (.int 2))]
    ⟨resetNs, "1\n", "2\n"⟩ rfl (by simp)

/-! ## Lemmas about the package-name validation -/

theorem pkgCore_eq_spec (cs : List Char) : pkgCore cs = specPattern ⟨cs⟩ := by
  cases cs <;> rfl

/-- The code's regex check agrees everywhere with the spec's described
pattern extended by an optional single trailing newline. -/
theorem validPackage_eq_specPatternNL (p : String) :
    validPackage p = specPatternNL p := by
  cases p with
  | mk data =>
      unfold validPackage specPatternNL
      rw [pkgCore_eq_spec, pkgCore_eq_spec]
      rfl

theorem pkgCore_no_bracket (cs : List Char) (h : pkgCore cs = true) :
    '[' ∉ cs := by
  cases cs with
  | nil => simp
  | cons c rest =>
      simp only [pkgCore, Bool.and_eq_true, List.all_eq_true] at h
      intro hmem
      rcases List.mem_cons.mp hmem with hc | hc
      · rw [← hc] at h
        exact absurd h.1 (by decide)
      · have := h.2 _ hc
        exact absurd this (by decide)

theorem valid_no_bracket (p : String) (h : validPackage p = true) :
    '[' ∉ p.toList := by
  unfold validPackage at h
  simp only [Bool.or_eq_true, Bool.and_eq_true, decide_eq_true_eq] at h
  rcases h with h₁ | ⟨hlast, hcore⟩
  · exact pkgCore_no_bracket _ h₁
  · have hsplit : p.toList.dropLast ++ ['\n'] = p.toList :=
      List.dropLast_append_getLast? _ (Option.mem_def.mpr hlast)
    intro hmem
    rw [← hsplit] at hmem
    rcases List.mem_append.mp hmem with hm | hm
    · exact pkgCore_no_bracket _ hcore hm
    · simp at hm

theorem install_package_effects (w : UvWorld) (ns : Ns) (p : String)
    (h : validPackage p = true) :
    (install_package w ns p).2 = [.uvInstall p] := by
  rw [install_package, if_neg (by simp [h])]
  rcases huv : w.uv p with _ | ⟨c, o, e⟩
  · rfl
  · simp only []
    split
    · rfl
    · split
      · rfl
      · split <;> rfl

theorem strMk_toList (s : String) : (⟨s.toList⟩ : String) = s := by
  cases s; rfl

/-- C5 counterexample: the claim "the package manager is invoked iff the
identifier matches the described pattern" is false at `"a" ++ "\n"`: the
trailing newline is outside the described character classes, yet Python's
`$` anchor accepts it, so the subprocess is invoked. -/
theorem install_validation_newline_cex :
    validPackage "a\n" = true ∧ specPattern "a\n" = false ∧
    (install_package ⟨fun _ => .exit 0 "" "", fun _ => true, fun _ => ""⟩
        resetNs "a\n").2 = [.uvInstall "a\n"] :=
  ⟨by decide, by decide, rfl⟩

/-- C5 (amended): the package manager is invoked iff the identifier
matches the described pattern *optionally followed by a single trailing
newline*; an identifier failing that (e.g. containing a space, or
starting with punctuation) is rejected with the invalid-package-name
text, with no subprocess invocation and no namespace change. -/
theorem install_package_validation (w : UvWorld) (ns : Ns) (p : String) :
    ((install_package w ns p).2 = [] ↔ specPatternNL p = false) ∧
    (specPatternNL p = false →
      install_package w ns p
        = (.ok (ns, "Invalid package name: " ++ p), [])) := by
  have hv := validPackage_eq_specPatternNL p
  have hrej : specPatternNL p = false →
      install_package w ns p
        = (.ok (ns, "Invalid package name: " ++ p), []) := by
    intro hsp
    have hvf : validPackage p = false := hv.trans hsp
    simp [install_package, hvf]
  refine ⟨⟨?_, fun hsp => by rw [hrej hsp]⟩, hrej⟩
  intro h2
  cases hb : specPatternNL p with
  | false => rfl
  | true =>
      have := install_package_effects w ns p (hv.trans hb)
      rw [this] at h2
      simp at h2

/-- C5 witness: `install_package ("foo bar")` is rejected with the
invalid-package-name text, without any subprocess invocation and without
touching the namespace. -/
theorem install_package_validation_witness :
    install_package ⟨fun _ => .exit 0 "" "", fun _ => true, fun _ => ""⟩
        resetNs "foo bar"
      = (.ok (resetNs, "Invalid package name: foo bar"), []) :=
  (install_package_validation
      ⟨fun _ => .exit 0 "" "", fun _ => true, fun _ => ""⟩
      resetNs "foo bar").2 (by decide)

/-- C4 counterexample: the claim "every failure mode of the three tools is
translated into a text result, never an exception" is false: when the
package manager executable cannot be launched, `subprocess.run` raises
`FileNotFoundError`, which `except subprocess.CalledProcessError`
(line 87) does not match, so the fault escapes `install_package`. -/
theorem install_package_launchfail_escapes :
    install_package ⟨fun _ => .launchFail, fun _ => true, fun _ => ""⟩
        resetNs "numpy"
      = (.error .fileNotFoundError, [.uvInstall "numpy"]) ∧
    returnsText (install_package
        ⟨fun _ => .launchFail, fun _ => true, fun _ => ""⟩
        resetNs "numpy").1 = false :=
  ⟨rfl, rfl⟩

/-- C4 (amended): provided the package manager can be launched and the
post-install `import` statement for the stripped identifier is
syntactically valid, every failure mode of `install_package` is
translated into a descriptive text result; in particular, after a
successful installation, an `ImportError` at the bind step yields the
distinct installed-but-import-failed text rather than an escaping
exception.  (Excluded by the counterexample: a launch failure raises
`FileNotFoundError`, and a syntactically invalid import — e.g. a
hyphenated name — raises `SyntaxError`; `execute_python`'s analogous
exclusion is the `BaseException` case of C3.) -/
theorem install_package_text_result (w : UvWorld) (ns : Ns) (p : String)
    (c : Int) (o e : String) (hv : validPackage p = true)
    (huv : w.uv p = .exit c o e)
    (hsyn : importSyntaxOk (modHead p) = true) :
    returnsText (install_package w ns p).1 = true ∧
    (c = 0 ∧ w.importOk (modHead p) = false →
      (install_package w ns p).1
        = .ok (ns, "Package installed but import failed: "
                     ++ w.importErrMsg (modHead p))) := by
  rw [install_package, if_neg (by simp [hv]), huv]
  by_cases hc : c = 0
  · subst hc
    simp only [ne_eq, not_true_eq_false, if_false, reduceIte, hsyn]
    by_cases him : w.importOk (modHead p)
    · simp [him, returnsText]
    · simp [him, returnsText]
  · simp [hc, returnsText]

/-- C4 witness: installation succeeds but the module cannot be imported;
the call returns the distinct installed-but-import-failed text. -/
theorem install_package_text_result_witness :
    (install_package
        ⟨fun _ => .exit 0 "" "", fun _ => false,
         fun _ => "No module named numpy"⟩ resetNs "numpy").1
      = .ok (resetNs,
             "Package installed but import failed: No module named numpy") :=
  (install_package_text_result
      ⟨fun _ => .exit 0 "" "", fun _ => false,
       fun _ => "No module named numpy"⟩
      resetNs "numpy" 0 "" "" (by decide) rfl (by decide)).2 ⟨rfl, rfl⟩

/-- C10 counterexample: the claim "the module name bound into the
namespace is character-for-character the accepted identifier" is false at
the accepted identifier `a.b`: the bracketed-extras stripping is indeed
vacuous, but `import a.b` binds the name `a`, not `a.b`. -/
theorem install_dotted_binds_head_cex :
    validPackage "a.b" = true ∧ '[' ∉ "a.b".toList ∧
    install_package ⟨fun _ => .exit 0 "" "", fun _ => true, fun _ => ""⟩
        resetNs "a.b"
      = (.ok (nsSet resetNs "a" (.VModule "a"),
              "Successfully installed and imported a.b"),
         [.uvInstall "a.b"]) ∧
    boundName (modHead "a.b") ≠ "a.b" :=
  ⟨by decide, by decide, rfl, by decide⟩

/-- C10 (amended): every identifier accepted by the validation pattern
contains no opening bracket, so the bracketed-extras stripping at the
bind step is vacuous (`modHead p = p`) and a request with bracketed
extras can never reach the install or bind steps; the name bound by
the import is the identifier's first dotted component, which coincides
with the identifier exactly when it contains no dot and no trailing
newline. -/
theorem install_accepted_names (p : String) (hv : validPackage p = true) :
    '[' ∉ p.toList ∧ modHead p = p ∧
    ('.' ∉ p.toList ∧ '\n' ∉ p.toList → boundName (modHead p) = p) := by
  have hnb := valid_no_bracket p hv
  have hmh : modHead p = p := by
    rw [modHead,
        List.takeWhile_eq_self_iff.mpr
          (fun x hx => by
            simp only [decide_eq_true_eq]
            exact fun hxe => hnb (hxe ▸ hx)),
        strMk_toList]
  refine ⟨hnb, hmh, ?_⟩
  rintro ⟨hdot, hnl⟩
  rw [hmh, boundName]
  have hdnl : dropNL p = p := by
    rw [dropNL, if_neg]
    intro hlast
    exact hnl ((List.dropLast_append_getLast? _
        (Option.mem_def.mpr hlast)) ▸ List.mem_append_right _ (by simp))
  rw [hdnl,
      List.takeWhile_eq_self_iff.mpr
        (fun x hx => by
          simp only [decide_eq_true_eq]
          exact fun hxe => hdot (hxe ▸ hx)),
      strMk_toList]

/-- C10 amended witness: the undotted identifier `numpy` is accepted, the
stripping is vacuous, and the bound name is exactly the identifier. -/
theorem install_accepted_names_witness :
    '[' ∉ "numpy".toList ∧ modHead "numpy" = "numpy" ∧
    ('.' ∉ "numpy".toList ∧ '\n' ∉ "numpy".toList →
      boundName (modHead "numpy") = "numpy") :=
  install_accepted_names "numpy" (by decide)

/-- C8: `list_variables` is a pure read (a function of the namespace
producing only text): it renders one `key = repr` line, in insertion
order, for each entry whose key does not start with an underscore and is
not the builtins key; it returns the fixed no-variables message exactly
when that filtered set is empty; immediately after a reset it returns the
fixed message, and after binding one variable it returns exactly one
line. -/
theorem list_variables_spec :
    (∀ ns : Ns, visibleVars ns = [] →
        list_variables ns = "No variables in current session.") ∧
    (∀ ns : Ns, visibleVars ns ≠ [] →
        list_variables ns
          = "Current session variables:\n\n"
              ++ String.intercalate "\n"
                  ((visibleVars ns).map (fun kv => kv.1 ++ " = " ++ kv.2))) ∧
    list_variables resetNs = "No variables in current session." ∧
    execute_python resetNs (bindProg "x" 5) false
      = .ok (nsSet resetNs "x" (.VInt 5), noOutputMsg) ∧
    list_variables (nsSet resetNs "x" (.VInt 5))
      = "Current session variables:\n\nx = 5" := by
  refine ⟨?_, ?_, rfl, rfl, rfl⟩
  · intro ns h; simp [list_variables, h]
  · intro ns h; simp [list_variables, h]

/-- C8 witness: a namespace holding one user binding lists exactly that
one `key = repr` line. -/
theorem list_variables_spec_witness :
    list_variables (nsSet resetNs "y" (.VInt 7))
      = "Current session variables:\n\n"
          ++ String.intercalate "\n"
              ((visibleVars (nsSet resetNs "y" (.VInt 7))).map
                (fun kv => kv.1 ++ " = " ++ kv.2)) :=
  list_variables_spec.2.1 (nsSet resetNs "y" (.VInt 7)) (by decide)

end McpPython
